import Mathlib

/-!
Shallow embedding of the SmartGlassesPi inference pipeline.

Source files embedded:
* `OCR/piOCR.py` — recognition-engine cache (`_get_easyocr_reader`),
  `detect_text`, and `benchmark_ocr_quality`;
* `TTS/piper_tts.py` — `initialize_piper_voice`, `synthesise_to_memory`,
  `save_wav`;
* `smartglasses_app.py` — `image_to_speech`.

External collaborators (OpenCV decode/resize, the EasyOCR model, the Piper
voice, the filesystem) are passed in as explicit function parameters or
explicit state, so every theorem quantifies over their behaviour.  Timing
prints in the source are observational only and are not modelled.
-/

namespace SmartGlasses

/-- piOCR.py line 18: the fixed language set of the recognition engine. -/
def LANGUAGES : List String := ["en"]

/-- A recognition-engine instance.  `id` is a construction counter so that
two separately constructed engines are distinguishable (identity, not just
structural equality, in the Python source). -/
structure Engine where
  id : Nat
  langs : List String
  gpu : Bool
deriving DecidableEq

/-- The process-wide `lru_cache(maxsize=1)` on `_get_easyocr_reader`:
`cached` is the memoised instance (none before first use), `nextId` feeds
fresh identities to newly constructed engines. -/
structure CacheState where
  cached : Option Engine
  nextId : Nat
deriving DecidableEq

/-- piOCR.py lines 21-24: `_get_easyocr_reader`.  On a cache miss the engine
is constructed with the fixed languages and `gpu=False` and memoised; on a
hit the cached instance is returned and the state is untouched. -/
def get_easyocr_reader (s : CacheState) : Engine × CacheState :=
  match s.cached with
  | some e => (e, s)
  | none =>
    let e : Engine := ⟨s.nextId, LANGUAGES, false⟩
    (e, { cached := some e, nextId := s.nextId + 1 })

/-- An opaque decoded raster image: dimensions plus an abstract pixel
content tag. -/
structure Image where
  width : Nat
  height : Nat
  pix : Nat
deriving DecidableEq

/-- piOCR.py lines 26-49: `detect_text`.  `imread` models `cv2.imread`
(None on decode failure), `readtext` models `reader.readtext` (which may
raise).  A decode failure raises before the engine is obtained; the `gpu`
flag only triggers a log line in the source and affects nothing here.
Returns the text field of each detection, in detection order, together
with the evolved engine-cache state. -/
def detect_text (imread : String → Option Image)
    (readtext : Engine → Image → Except String (List (Nat × String × Nat)))
    (image_path : String) (gpu : Bool) (s : CacheState) :
    Except String (List String) × CacheState :=
  match imread image_path with
  | none => (Except.error ("Image not found: " ++ image_path), s)
  | some image =>
    match get_easyocr_reader s with
    | (reader, s1) =>
      match readtext reader image with
      | Except.error e => (Except.error e, s1)
      | Except.ok results => (Except.ok (results.map (fun r => r.2.1)), s1)

/-- `n` successive calls of the engine accessor, collecting the served
instances. -/
def runGets : Nat → CacheState → List Engine × CacheState
  | 0, s => ([], s)
  | n + 1, s =>
    match get_easyocr_reader s with
    | (e, s1) =>
      match runGets n s1 with
      | (es, s2) => (e :: es, s2)

/-- A sequence of `detect_text` calls, each with its own path and gpu flag,
threading the engine-cache state. -/
def runDetects (imread : String → Option Image)
    (readtext : Engine → Image → Except String (List (Nat × String × Nat))) :
    List (String × Bool) → CacheState →
      List (Except String (List String)) × CacheState
  | [], s => ([], s)
  | (p, g) :: rest, s =>
    match detect_text imread readtext p g s with
    | (r, s1) =>
      match runDetects imread readtext rest s1 with
      | (rs, s2) => (r :: rs, s2)

/-- Python `str` whitespace characters relevant to `.strip()` (ASCII part). -/
def isPySpace (c : Char) : Bool :=
  c = ' ' ∨ c = '\t' ∨ c = '\n' ∨ c = '\x0d' ∨ c = '\x0b' ∨ c = '\x0c'

/-- Model of Python `str.strip()` on the character list: drop whitespace
from the front, then from the back. -/
def stripList (l : List Char) : List Char :=
  ((l.dropWhile isPySpace).reverse.dropWhile isPySpace).reverse

/-- Model of Python `str.strip()`. -/
def pyStrip (s : String) : String := ⟨stripList s.data⟩

/-- Model of Python `" ".join(fragments)`. -/
def joinSpace : List String → String
  | [] => ""
  | [x] => x
  | x :: y :: rest => x ++ " " ++ joinSpace (y :: rest)

/-- Model of Python `a or b` on strings: a string is falsy exactly when it
is empty. -/
def pyOr (a b : String) : String := if a = "" then b else a

/-- Model of Python `p.split("/")` on a character list: split into groups
at every slash. -/
def splitOnSlash : List Char → List (List Char)
  | [] => [[]]
  | c :: rest =>
    match splitOnSlash rest with
    | [] => if c = '/' then [[], [c]] else [[c]]
    | g :: gs => if c = '/' then [] :: g :: gs else (c :: g) :: gs

/-- The components of a slash-separated path. -/
def splitPath (p : String) : List String :=
  (splitOnSlash p.data).map (fun l => ⟨l⟩)

/-- Join path components back with slashes. -/
def joinPath : List String → String
  | [] => ""
  | [x] => x
  | x :: y :: rest => x ++ "/" ++ joinPath (y :: rest)

/-- Model of `Path(p).parents` (nearest last): every proper prefix of the
path components, i.e. the chain of directories `mkdir(parents=True)` must
create. -/
def parentDirs (p : String) : List String :=
  let comps := splitPath p
  (List.range (comps.length - 1)).map (fun i => joinPath (comps.take (i + 1)))

/-- Model of `os.path.basename`: the last slash-separated component. -/
def baseName (p : String) : String := (splitPath p).reverse.headD ""

/-- First-match association lookup (a file store keyed by path). -/
def lookupAssoc {β : Type} : List (String × β) → String → Option β
  | [], _ => none
  | (k, v) :: rest, p => if k = p then some v else lookupAssoc rest p

/-- Remove every binding of a key (model of deleting a file). -/
def removeAssoc {β : Type} : List (String × β) → String → List (String × β)
  | [], _ => []
  | (k, v) :: rest, p =>
    if k = p then removeAssoc rest p else (k, v) :: removeAssoc rest p

/-- Overwrite a key with a new value (model of writing a file: last writer
wins, no error on an existing file). -/
def setAssoc {β : Type} (l : List (String × β)) (k : String) (v : β) :
    List (String × β) :=
  (k, v) :: removeAssoc l k

/-- A WAV file as the `wave` module writes it: channel count, bytes per
sample, frame rate, and the raw frame bytes. -/
structure WavFile where
  nchannels : Nat
  sampwidth : Nat
  framerate : Nat
  frames : List Nat
deriving DecidableEq

/-- The filesystem state the audio writer touches: the set of directories
that exist and the WAV files keyed by path. -/
structure FS where
  dirs : List String
  wavs : List (String × WavFile)
deriving DecidableEq

/-- Model of `Path(p).parent.mkdir(parents=True, exist_ok=True)`: add every
missing parent directory of `p`, keeping the ones already present. -/
def mkdirParents (p : String) (fs : FS) : FS :=
  { fs with
    dirs := (parentDirs p).foldl
      (fun ds d => if d ∈ ds then ds else ds ++ [d]) fs.dirs }

/-- The two little-endian bytes of one sample after the `int16` wrap that
`np.asarray(samples, dtype=np.int16)` performs: low byte first. -/
def int16Bytes (v : Int) : List Nat :=
  let u := (v % 65536).toNat
  [u % 256, u / 256]

/-- Model of `samples.tobytes()` for an `int16` array: the little-endian
bytes of each sample in order. -/
def tobytesLE (samples : List Int) : List Nat :=
  (samples.map int16Bytes).flatten

/-- Model of `np.frombuffer(bytes, dtype=np.int16)`: reinterpret the byte
string as little-endian signed 16-bit samples. -/
def pairsToInt16 : List Nat → List Int
  | b0 :: b1 :: rest =>
    (if b0 % 256 + 256 * (b1 % 256) < 32768 then
        ((b0 % 256 + 256 * (b1 % 256) : Nat) : Int)
      else ((b0 % 256 + 256 * (b1 % 256) : Nat) : Int) - 65536)
      :: pairsToInt16 rest
  | _ => []

/-- `np.frombuffer` raises when the buffer length is not a multiple of the
element size (2 bytes for `int16`); otherwise it decodes the samples. -/
def frombufferInt16 (bytes : List Nat) : Except String (List Int) :=
  if bytes.length % 2 = 0 then Except.ok (pairsToInt16 bytes)
  else Except.error "buffer size must be a multiple of element size"

/-- piper_tts.py lines 79-95: `synthesise_to_memory`.
`synthesize_stream_raw` models the loaded voice's chunk stream.  Blank text
(`not text or not text.strip()`) raises ValueError before synthesis; else
the chunks are concatenated and reinterpreted as an `int16` buffer. -/
def synthesise_to_memory (synthesize_stream_raw : String → List (List Nat))
    (text : String) : Except String (List Int) :=
  if text = "" ∨ pyStrip text = "" then
    Except.error "Text to synthesise must not be empty."
  else
    frombufferInt16 (synthesize_stream_raw text).flatten

/-- piper_tts.py lines 29-76: `initialize_piper_voice`.  `pathExists`
models `Path(...).exists()`, `load` models `PiperVoice.load` over an
abstract voice type `V`.  The model path is checked first, then an
explicitly supplied config path; an omitted config path is not checked.
The `use_gpu` flag is forwarded to the loader (its only other effect in the
source is a log line). -/
def initialize_piper_voice {V : Type} (pathExists : String → Bool)
    (load : String → Option String → Bool → V)
    (model_path : String) (config_path : Option String) (use_gpu : Bool) :
    Except String V :=
  if pathExists model_path = false then
    Except.error ("Piper model not found: " ++ model_path)
  else
    match config_path with
    | some c =>
      if pathExists c = false then
        Except.error ("Piper config not found: " ++ c)
      else Except.ok (load model_path config_path use_gpu)
    | none => Except.ok (load model_path config_path use_gpu)

/-- piper_tts.py lines 98-114: `save_wav`.  Creates the missing parent
directories of `output_path`, then (over)writes a mono, 16-bit WAV file at
the supplied sample rate whose frames are the samples' little-endian
bytes. -/
def save_wav (samples : List Int) (sample_rate : Nat) (output_path : String)
    (fs : FS) : FS :=
  let fs1 := mkdirParents output_path fs
  { fs1 with
    wavs := setAssoc fs1.wavs output_path ⟨1, 2, sample_rate, tobytesLE samples⟩ }

/-- smartglasses_app.py line 17. -/
def DEFAULT_MODEL_PATH : String := "TTS/en_US-amy-low.onnx"

/-- smartglasses_app.py line 18. -/
def DEFAULT_CONFIG_PATH : String := "TTS/en_US-amy-low.onnx.json"

/-- smartglasses_app.py lines 21-59: `image_to_speech`.  `synth` models
`voice.synthesize_stream_raw`, `sampleRate` models
`getattr(getattr(voice, "config", None), "sample_rate", 22050)`.  Threads
the engine-cache state and the filesystem state; the returned string is the
output path (the source resolves it to an absolute path, modelled as the
identity). -/
def image_to_speech {V : Type}
    (pathExists : String → Bool)
    (imread : String → Option Image)
    (readtext : Engine → Image → Except String (List (Nat × String × Nat)))
    (load : String → Option String → Bool → V)
    (synth : V → String → List (List Nat))
    (sampleRate : V → Nat)
    (image_path output_wav_path : String)
    (ocr_gpu tts_gpu : Bool)
    (model_path config_path : Option String)
    (fallback_text : String)
    (s : CacheState) (fs : FS) :
    Except String String × CacheState × FS :=
  if pathExists image_path = false then
    (Except.error ("Image not found: " ++ image_path), s, fs)
  else
    match detect_text imread readtext image_path ocr_gpu s with
    | (Except.error e, s1) => (Except.error e, s1, fs)
    | (Except.ok detected_text, s1) =>
      let joined_text := pyOr (pyStrip (joinSpace detected_text)) fallback_text
      let model := model_path.getD DEFAULT_MODEL_PATH
      let config := config_path.getD DEFAULT_CONFIG_PATH
      if pathExists model = false then
        (Except.error ("Piper model not found: " ++ model), s1, fs)
      else if pathExists config = false then
        (Except.error ("Piper config not found: " ++ config), s1, fs)
      else
        match initialize_piper_voice pathExists load model (some config) tts_gpu with
        | Except.error e => (Except.error e, s1, fs)
        | Except.ok voice =>
          match synthesise_to_memory (synth voice) joined_text with
          | Except.error e => (Except.error e, s1, fs)
          | Except.ok samples =>
            let fs1 := mkdirParents output_wav_path fs
            let fs2 := save_wav samples (sampleRate voice) output_wav_path fs1
            (Except.ok output_wav_path, s1, fs2)

/-- piOCR.py line 71: the three scale factors, as exact rationals
(numerator, denominator).  The float products `w * 1.0`, `w * 0.5`,
`w * 0.25` are exact binary fractions, so `int(w * scale)` (truncation)
coincides with the Nat floor division `w * num / den`. -/
def scale_factors : List (Nat × Nat) := [(1, 1), (1, 2), (1, 4)]

/-- piOCR.py line 74: the temporary directory for scaled images. -/
def temp_dir : String := "temp_benchmark_images"

/-- The label the f-string `{scale:.2f}` renders for the three scales in
use. -/
def scaleLabel : Nat × Nat → String
  | (1, 1) => "1.00"
  | (1, 2) => "0.50"
  | (1, 4) => "0.25"
  | (n, d) => toString n ++ "over" ++ toString d

/-- piOCR.py line 92: the temporary scaled-image path for one scale. -/
def tempPath (sc : Nat × Nat) (image_path : String) : String :=
  temp_dir ++ "/scaled_" ++ scaleLabel sc ++ "_" ++ baseName image_path

/-- One record of the benchmark result dictionary (piOCR.py lines 104-125).
`scale_factor` is the exact rational scale; `resolution` is the (width,
height) pair the source renders as `"WxH"`. -/
structure BenchmarkResult where
  scale_factor : Nat × Nat
  resolution : Nat × Nat
  execution_time : Nat
  detected_text : List String
  text_count : Nat
  success : Bool
  error : Option String
deriving DecidableEq

/-- One iteration of the benchmark loop (piOCR.py lines 83-131): compute
the truncated scaled dimensions, resize, write the temporary image into the
image store, run `detect_text` on it with only that recognition call inside
the try block, record a success or failure result, and delete the temporary
image.  `elapsedTime i` models the wall-clock measurement of iteration `i`;
on failure the source records `execution_time: 0`. -/
def benchIter
    (resize : Image → Nat → Nat → Image)
    (readtext : Engine → Image → Except String (List (Nat × String × Nat)))
    (elapsedTime : Nat → Nat)
    (image_path : String) (gpu : Bool) (original : Image)
    (i : Nat) (sc : Nat × Nat)
    (s : CacheState) (store : List (String × Image)) :
    BenchmarkResult × CacheState × List (String × Image) :=
  let new_width := original.width * sc.1 / sc.2
  let new_height := original.height * sc.1 / sc.2
  let scaled_image := resize original new_width new_height
  let temp_image_path := tempPath sc image_path
  let store1 := setAssoc store temp_image_path scaled_image
  match detect_text (lookupAssoc store1) readtext temp_image_path gpu s with
  | (Except.ok detected_text, s1) =>
    (⟨sc, (new_width, new_height), elapsedTime i, detected_text,
        detected_text.length, true, none⟩,
      s1, removeAssoc store1 temp_image_path)
  | (Except.error e, s1) =>
    (⟨sc, (new_width, new_height), 0, [], 0, false, some e⟩,
      s1, removeAssoc store1 temp_image_path)

/-- The benchmark loop over the enumerated scale factors, threading the
engine-cache state and the temporary-image store. -/
def benchLoop
    (resize : Image → Nat → Nat → Image)
    (readtext : Engine → Image → Except String (List (Nat × String × Nat)))
    (elapsedTime : Nat → Nat)
    (image_path : String) (gpu : Bool) (original : Image) :
    Nat → List (Nat × Nat) → CacheState → List (String × Image) →
      List BenchmarkResult × CacheState × List (String × Image)
  | _, [], s, store => ([], s, store)
  | i, sc :: rest, s, store =>
    match benchIter resize readtext elapsedTime image_path gpu original
        i sc s store with
    | (r, s1, store1) =>
      match benchLoop resize readtext elapsedTime image_path gpu original
          (i + 1) rest s1 store1 with
      | (rs, s2, store2) => (r :: rs, s2, store2)

/-- piOCR.py lines 51-184: `benchmark_ocr_quality` (the measuring loop; the
report's summary is `benchSummary` below).  Decode failure of the original
image raises; otherwise every scale factor yields exactly one result. -/
def benchmark_ocr_quality
    (imread : String → Option Image)
    (resize : Image → Nat → Nat → Image)
    (readtext : Engine → Image → Except String (List (Nat × String × Nat)))
    (elapsedTime : Nat → Nat)
    (image_path : String) (gpu : Bool) (s : CacheState) :
    Except String
      (List BenchmarkResult × CacheState × List (String × Image)) :=
  match imread image_path with
  | none => Except.error ("Image not found: " ++ image_path)
  | some original_image =>
    Except.ok (benchLoop resize readtext elapsedTime image_path gpu
      original_image 0 scale_factors s [])

/-- The summary block of the report (piOCR.py lines 170-181): either the
explicit no-success statement, or the aggregate statistics.  The average is
kept as numerator and denominator, exactly as the source divides. -/
inductive Summary where
  | noSuccess : Summary
  | stats (avgNum avgDen : Nat) (fastest slowest : BenchmarkResult) : Summary
deriving DecidableEq

/-- Python `min(list, key=execution_time)` starting from a first candidate:
replace the candidate only on a strictly smaller key, so ties keep the
earlier element. -/
def minByTime : BenchmarkResult → List BenchmarkResult → BenchmarkResult
  | b, [] => b
  | b, x :: xs =>
    if x.execution_time < b.execution_time then minByTime x xs
    else minByTime b xs

/-- Python `max(list, key=execution_time)` starting from a first candidate:
replace the candidate only on a strictly larger key, so ties keep the
earlier element. -/
def maxByTime : BenchmarkResult → List BenchmarkResult → BenchmarkResult
  | b, [] => b
  | b, x :: xs =>
    if b.execution_time < x.execution_time then maxByTime x xs
    else maxByTime b xs

/-- piOCR.py lines 170-181: the summary statistics, computed over the
successful tests only; with zero successes the report states that instead
of computing anything. -/
def benchSummary (results : List BenchmarkResult) : Summary :=
  match results.filter (fun r => r.success) with
  | [] => Summary.noSuccess
  | r :: rest =>
    Summary.stats (((r :: rest).map (fun x => x.execution_time)).sum)
      (r :: rest).length (minByTime r rest) (maxByTime r rest)

/-! Helper lemmas about the engine cache. -/

theorem get_easyocr_reader_cached (s : CacheState) (e : Engine)
    (h : s.cached = some e) : get_easyocr_reader s = (e, s) := by
  unfold get_easyocr_reader; rw [h]

theorem get_easyocr_reader_fresh (s : CacheState) (h : s.cached = none) :
    get_easyocr_reader s
      = (⟨s.nextId, LANGUAGES, false⟩,
          ⟨some ⟨s.nextId, LANGUAGES, false⟩, s.nextId + 1⟩) := by
  unfold get_easyocr_reader; rw [h]

theorem get_get (s : CacheState) :
    get_easyocr_reader (get_easyocr_reader s).2
      = ((get_easyocr_reader s).1, (get_easyocr_reader s).2) := by
  cases h : s.cached with
  | none =>
    rw [get_easyocr_reader_fresh s h]
    exact get_easyocr_reader_cached _ _ rfl
  | some e =>
    rw [get_easyocr_reader_cached s _ h]
    exact get_easyocr_reader_cached _ _ h

theorem runGets_succ (n : Nat) (s : CacheState) :
    runGets (n + 1) s
      = ((get_easyocr_reader s).1 :: (runGets n (get_easyocr_reader s).2).1,
          (runGets n (get_easyocr_reader s).2).2) := rfl

theorem runGets_mem (n : Nat) :
    ∀ (s : CacheState) (e : Engine),
      e ∈ (runGets n s).1 → e = (get_easyocr_reader s).1 := by
  induction n with
  | zero => intro s e h; simp [runGets] at h
  | succ n ih =>
    intro s e h
    rw [runGets_succ] at h
    rcases List.mem_cons.mp h with h | h
    · exact h
    · have h2 := ih _ _ h
      rw [h2, get_get]

theorem detect_text_some (imread : String → Option Image)
    (readtext : Engine → Image → Except String (List (Nat × String × Nat)))
    (p : String) (g : Bool) (s : CacheState) (image : Image)
    (h : imread p = some image) :
    detect_text imread readtext p g s
      = (match readtext (get_easyocr_reader s).1 image with
          | Except.error e => (Except.error e, (get_easyocr_reader s).2)
          | Except.ok results =>
            (Except.ok (results.map (fun r => r.2.1)),
              (get_easyocr_reader s).2)) := by
  unfold detect_text
  rw [h]

theorem detect_text_state (imread : String → Option Image)
    (readtext : Engine → Image → Except String (List (Nat × String × Nat)))
    (p : String) (g : Bool) (s : CacheState) :
    (detect_text imread readtext p g s).2 = s
    ∨ (s.cached = none ∧ (detect_text imread readtext p g s).2
        = ⟨some ⟨s.nextId, LANGUAGES, false⟩, s.nextId + 1⟩) := by
  cases himr : imread p with
  | none =>
    left
    unfold detect_text
    rw [himr]
  | some image =>
    rw [detect_text_some imread readtext p g s image himr]
    cases hc : s.cached with
    | none =>
      right
      refine ⟨rfl, ?_⟩
      rw [get_easyocr_reader_fresh s hc]
      cases readtext ⟨s.nextId, LANGUAGES, false⟩ image <;> rfl
    | some e =>
      left
      rw [get_easyocr_reader_cached s _ hc]
      cases readtext e image <;> rfl

theorem runDetects_cons (imread : String → Option Image)
    (readtext : Engine → Image → Except String (List (Nat × String × Nat)))
    (p : String) (g : Bool) (rest : List (String × Bool)) (s : CacheState) :
    runDetects imread readtext ((p, g) :: rest) s
      = ((detect_text imread readtext p g s).1
            :: (runDetects imread readtext rest
              (detect_text imread readtext p g s).2).1,
          (runDetects imread readtext rest
            (detect_text imread readtext p g s).2).2) := rfl

theorem runDetects_state (imread : String → Option Image)
    (readtext : Engine → Image → Except String (List (Nat × String × Nat))) :
    ∀ (calls : List (String × Bool)) (s : CacheState),
      (runDetects imread readtext calls s).2 = s
      ∨ (s.cached = none ∧ (runDetects imread readtext calls s).2
          = ⟨some ⟨s.nextId, LANGUAGES, false⟩, s.nextId + 1⟩) := by
  intro calls
  induction calls with
  | nil => intro s; left; rfl
  | cons c rest ih =>
    intro s
    obtain ⟨p, g⟩ := c
    rw [runDetects_cons]
    rcases detect_text_state imread readtext p g s with h | ⟨hn, h⟩
    · rw [h]; exact ih s
    · rcases ih ((detect_text imread readtext p g s).2) with h2 | ⟨hn2, h2⟩
      · rw [h2, h]; right; exact ⟨hn, rfl⟩
      · rw [h] at hn2; cases hn2

/-- C1: for every process, calling the engine accessor any number of times
returns the identical engine instance every time; across any sequence of
`detect_text` calls with any mix of gpu flags the engine is constructed at
most once (`nextId` grows by at most one) and, once an engine is cached, the
cache state never changes again (never reconstructed). -/
theorem engine_constructed_once
    (imread : String → Option Image)
    (readtext : Engine → Image → Except String (List (Nat × String × Nat)))
    (calls : List (String × Bool)) (n : Nat) (s : CacheState) :
    (∀ e, e ∈ (runGets n s).1 → e = (get_easyocr_reader s).1)
    ∧ (runDetects imread readtext calls s).2.nextId ≤ s.nextId + 1
    ∧ (∀ e, s.cached = some e → (runDetects imread readtext calls s).2 = s) := by
  refine ⟨runGets_mem n s, ?_, ?_⟩
  · rcases runDetects_state imread readtext calls s with h | ⟨_, h⟩
    · rw [h]; omega
    · rw [h]
  · intro e he
    rcases runDetects_state imread readtext calls s with h | ⟨hn, h⟩
    · exact h
    · rw [he] at hn; cases hn

/-! Concrete collaborators used by the witnesses. -/

def wImread : String → Option Image :=
  fun p => if p = "img.png" then some ⟨8, 6, 1⟩ else none

def wReadtext : Engine → Image → Except String (List (Nat × String × Nat)) :=
  fun _ _ => Except.ok [(0, "hello", 9)]

theorem engine_constructed_once_witness :
    ((⟨0, LANGUAGES, false⟩ : Engine) = (get_easyocr_reader ⟨none, 0⟩).1)
    ∧ (runDetects wImread wReadtext [("img.png", true), ("img.png", false)]
        ⟨none, 0⟩).2.nextId ≤ 0 + 1
    ∧ (runDetects wImread wReadtext [("img.png", true)]
        ⟨some ⟨5, LANGUAGES, false⟩, 6⟩).2 = ⟨some ⟨5, LANGUAGES, false⟩, 6⟩ := by
  refine ⟨?_, ?_, ?_⟩
  · exact (engine_constructed_once wImread wReadtext [] 2 ⟨none, 0⟩).1
      ⟨0, LANGUAGES, false⟩ (by decide)
  · exact (engine_constructed_once wImread wReadtext
      [("img.png", true), ("img.png", false)] 0 ⟨none, 0⟩).2.1
  · exact (engine_constructed_once wImread wReadtext [("img.png", true)] 0
      ⟨some ⟨5, LANGUAGES, false⟩, 6⟩).2.2 ⟨5, LANGUAGES, false⟩ rfl

/-- C4: a failed image decode makes `detect_text` fail with the NotFound
error before the engine is touched: the cache state is returned unchanged
(no construction), and the outcome does not depend on the recognition
engine's behaviour at all. -/
theorem detect_text_decode_short_circuit
    (imread : String → Option Image)
    (readtext readtext2 : Engine → Image → Except String (List (Nat × String × Nat)))
    (p : String) (g : Bool) (s : CacheState)
    (h : imread p = none) :
    detect_text imread readtext p g s
      = (Except.error ("Image not found: " ++ p), s)
    ∧ detect_text imread readtext p g s
      = detect_text imread readtext2 p g s := by
  constructor
  · unfold detect_text; rw [h]
  · unfold detect_text; rw [h]

theorem detect_text_decode_short_circuit_witness :
    detect_text wImread wReadtext "missing.png" true ⟨none, 0⟩
      = (Except.error ("Image not found: " ++ "missing.png"), ⟨none, 0⟩) :=
  (detect_text_decode_short_circuit wImread wReadtext wReadtext
    "missing.png" true ⟨none, 0⟩ (by decide)).1

/-- C5: a missing model file makes `initialize_piper_voice` fail with
NotFound before any voice construction (the result does not depend on the
loader, so no partial voice exists); a supplied-but-missing config path
likewise fails with one of the two NotFound errors independently of the
loader; an omitted config path is not validated. -/
theorem load_voice_not_found {V : Type} (pathExists : String → Bool)
    (load load2 : String → Option String → Bool → V)
    (m : String) (c : Option String) (g : Bool) :
    (pathExists m = false →
      initialize_piper_voice pathExists load m c g
          = Except.error ("Piper model not found: " ++ m)
        ∧ initialize_piper_voice pathExists load m c g
          = initialize_piper_voice pathExists load2 m c g)
    ∧ (∀ cc, c = some cc → pathExists cc = false →
        (initialize_piper_voice pathExists load m c g
            = Except.error ("Piper model not found: " ++ m)
          ∨ initialize_piper_voice pathExists load m c g
            = Except.error ("Piper config not found: " ++ cc))
        ∧ initialize_piper_voice pathExists load m c g
          = initialize_piper_voice pathExists load2 m c g)
    ∧ (c = none → pathExists m = true →
        initialize_piper_voice pathExists load m c g
          = Except.ok (load m none g)) := by
  refine ⟨?_, ?_, ?_⟩
  · intro h
    unfold initialize_piper_voice
    rw [h]
    exact ⟨rfl, rfl⟩
  · intro cc hcc h
    subst hcc
    unfold initialize_piper_voice
    cases hm : pathExists m with
    | false => exact ⟨Or.inl rfl, rfl⟩
    | true => refine ⟨Or.inr ?_, ?_⟩ <;> simp [h]
  · intro hcc h
    subst hcc
    unfold initialize_piper_voice
    rw [h]
    rfl

theorem load_voice_not_found_witness :
    (initialize_piper_voice (V := String × Option String)
        (fun p => p = "m.onnx") (fun m c _ => (m, c)) "absent.onnx" none true
      = Except.error ("Piper model not found: " ++ "absent.onnx"))
    ∧ (initialize_piper_voice (V := String × Option String)
          (fun p => p = "m.onnx") (fun m c _ => (m, c)) "m.onnx"
          (some "absent.json") false
        = Except.error ("Piper model not found: " ++ "m.onnx")
      ∨ initialize_piper_voice (V := String × Option String)
          (fun p => p = "m.onnx") (fun m c _ => (m, c)) "m.onnx"
          (some "absent.json") false
        = Except.error ("Piper config not found: " ++ "absent.json"))
    ∧ initialize_piper_voice (V := String × Option String)
        (fun p => p = "m.onnx") (fun m c _ => (m, c)) "m.onnx" none false
      = Except.ok ("m.onnx", none) := by
  refine ⟨?_, ?_, ?_⟩
  · exact ((load_voice_not_found (fun p => p = "m.onnx") (fun m c _ => (m, c))
      (fun m c _ => (m, c)) "absent.onnx" none true).1 (by decide)).1
  · exact ((load_voice_not_found (fun p => p = "m.onnx") (fun m c _ => (m, c))
      (fun m c _ => (m, c)) "m.onnx" (some "absent.json") false).2.1
      "absent.json" rfl (by decide)).1
  · exact (load_voice_not_found (fun p => p = "m.onnx") (fun m c _ => (m, c))
      (fun m c _ => (m, c)) "m.onnx" none false).2.2 rfl (by decide)

/-- C6: requesting GPU acceleration is never an error and never changes
the observable result: `detect_text` returns the identical result and cache
state for `gpu = true` and `gpu = false`; on a platform without
acceleration (the loader falls back to CPU, i.e. ignores the flag)
`initialize_piper_voice` returns the identical result for both flags and
still succeeds whenever the validated paths exist. -/
theorem gpu_request_is_noop {V : Type}
    (imread : String → Option Image)
    (readtext : Engine → Image → Except String (List (Nat × String × Nat)))
    (p : String) (s : CacheState)
    (pathExists : String → Bool) (load : String → Option String → Bool → V)
    (m : String) (c : Option String)
    (hcpu : load m c true = load m c false) :
    detect_text imread readtext p true s = detect_text imread readtext p false s
    ∧ initialize_piper_voice pathExists load m c true
        = initialize_piper_voice pathExists load m c false
    ∧ (pathExists m = true → (∀ cc, c = some cc → pathExists cc = true) →
        initialize_piper_voice pathExists load m c true
          = Except.ok (load m c true)) := by
  refine ⟨rfl, ?_, ?_⟩
  · unfold initialize_piper_voice
    cases hm : pathExists m with
    | false => rfl
    | true =>
      cases c with
      | none => simp [hcpu]
      | some cc =>
        cases hcb : pathExists cc with
        | false => simp [hcb]
        | true => simp [hcb, hcpu]
  · intro hm hcc
    unfold initialize_piper_voice
    rw [hm]
    cases c with
    | none => rfl
    | some cc => simp [hcc cc rfl]

theorem gpu_request_is_noop_witness :
    detect_text wImread wReadtext "img.png" true ⟨none, 0⟩
      = detect_text wImread wReadtext "img.png" false ⟨none, 0⟩
    ∧ initialize_piper_voice (V := String × Option String)
        (fun p => p = "m.onnx") (fun m c _ => (m, c)) "m.onnx"
        (some "m.onnx") true
      = Except.ok ("m.onnx", some "m.onnx") := by
  constructor
  · exact (gpu_request_is_noop wImread wReadtext "img.png" ⟨none, 0⟩
      (fun p => p = "m.onnx") (fun m c _ => (m, c)) "m.onnx" none rfl).1
  · exact (gpu_request_is_noop (V := String × Option String) wImread wReadtext
      "img.png" ⟨none, 0⟩ (fun p => p = "m.onnx") (fun m c _ => (m, c))
      "m.onnx" (some "m.onnx") rfl).2.2 (by decide)
      (fun cc h => by rw [show cc = "m.onnx" from (Option.some_inj.mp h).symm]; decide)

/-! The speech synthesizer (C3) and the audio writer (C7). -/

theorem synthesise_blank_eq (stream : String → List (List Nat))
    (text : String) (h : pyStrip text = "") :
    synthesise_to_memory stream text
      = Except.error "Text to synthesise must not be empty." := by
  unfold synthesise_to_memory
  rw [if_pos (Or.inr h)]

theorem synthesise_nonblank_eq (stream : String → List (List Nat))
    (text : String)
    (haligned : ((stream text).flatten).length % 2 = 0)
    (h : pyStrip text ≠ "") :
    synthesise_to_memory stream text
      = Except.ok (pairsToInt16 (stream text).flatten) := by
  have ht : ¬(text = "" ∨ pyStrip text = "") := by
    rintro (h1 | h1)
    · subst h1; exact h rfl
    · exact h h1
  unfold synthesise_to_memory frombufferInt16
  rw [if_neg ht, if_pos haligned]

/-- C3: for every loaded voice (an arbitrary chunk stream whose bytes are
int16-aligned), `synthesise_to_memory` fails with the InvalidArgument error
exactly when the text is blank after stripping; on non-blank text it
returns the 16-bit reinterpretation of the concatenated chunks, which is
non-empty whenever the stream produced any bytes. -/
theorem synthesise_blank_iff (stream : String → List (List Nat)) (text : String)
    (haligned : ((stream text).flatten).length % 2 = 0) :
    (pyStrip text = "" →
      synthesise_to_memory stream text
        = Except.error "Text to synthesise must not be empty.")
    ∧ (pyStrip text ≠ "" →
        synthesise_to_memory stream text
          = Except.ok (pairsToInt16 (stream text).flatten)
        ∧ (1 ≤ ((stream text).flatten).length →
            pairsToInt16 (stream text).flatten ≠ [])) := by
  constructor
  · exact synthesise_blank_eq stream text
  · intro h
    refine ⟨synthesise_nonblank_eq stream text haligned h, ?_⟩
    intro h1
    rcases hl : (stream text).flatten with _ | ⟨b0, tl⟩
    · rw [hl] at h1; simp at h1
    · rcases tl with _ | ⟨b1, rest⟩
      · rw [hl] at haligned
        simp at haligned
      · simp [pairsToInt16]

theorem synthesise_blank_iff_witness :
    synthesise_to_memory (fun _ => [[10, 0]]) "hello" = Except.ok [10]
    ∧ synthesise_to_memory (fun _ => [[10, 0]]) "   "
      = Except.error "Text to synthesise must not be empty." := by
  constructor
  · have h := ((synthesise_blank_iff (fun _ => [[10, 0]]) "hello"
      (by decide)).2 (by decide)).1
    exact h.trans (congrArg Except.ok (by decide))
  · exact (synthesise_blank_iff (fun _ => [[10, 0]]) "   " (by decide)).1
      (by decide)

theorem lookupAssoc_set {β : Type} (l : List (String × β)) (k : String) (v : β) :
    lookupAssoc (setAssoc l k v) k = some v := by
  unfold setAssoc lookupAssoc
  rw [if_pos rfl]

theorem foldl_insert_mono (l : List String) :
    ∀ (ds : List String) (x : String), x ∈ ds →
      x ∈ l.foldl (fun ds d => if d ∈ ds then ds else ds ++ [d]) ds := by
  induction l with
  | nil => intro ds x h; exact h
  | cons a l ih =>
    intro ds x h
    simp only [List.foldl_cons]
    apply ih
    by_cases ha : a ∈ ds
    · rw [if_pos ha]; exact h
    · rw [if_neg ha]; exact List.mem_append_left _ h

theorem mem_foldl_insert (l : List String) :
    ∀ (ds : List String) (d : String), d ∈ l →
      d ∈ l.foldl (fun ds d => if d ∈ ds then ds else ds ++ [d]) ds := by
  induction l with
  | nil => intro ds d h; cases h
  | cons a l ih =>
    intro ds d h
    simp only [List.foldl_cons]
    rcases List.mem_cons.mp h with h | h
    · subst h
      apply foldl_insert_mono
      by_cases ha : d ∈ ds
      · rw [if_pos ha]; exact ha
      · rw [if_neg ha]
        exact List.mem_append_right _ (List.mem_singleton.mpr rfl)
    · exact ih _ _ h

/-- C7: `save_wav` succeeds for every samples buffer, sample rate, output
path and prior filesystem state (in particular it overwrites an existing
file): afterwards the path holds a file with exactly one channel, 2-byte
(16-bit) sample width, the supplied rate, and the samples' bytes in
little-endian order (low byte first per sample); every parent directory of
the path exists afterwards. -/
theorem save_wav_spec (samples : List Int) (rate : Nat) (path : String)
    (fs : FS) :
    lookupAssoc (save_wav samples rate path fs).wavs path
      = some ⟨1, 2, rate, tobytesLE samples⟩
    ∧ (∀ d, d ∈ parentDirs path → d ∈ (save_wav samples rate path fs).dirs)
    ∧ (∀ v rest, tobytesLE (v :: rest)
        = (v % 65536).toNat % 256 :: ((v % 65536).toNat / 256)
            :: tobytesLE rest) := by
  refine ⟨lookupAssoc_set _ _ _, ?_, ?_⟩
  · intro d hd
    exact mem_foldl_insert _ _ _ hd
  · intro v rest
    rfl

theorem save_wav_spec_witness :
    lookupAssoc (save_wav [1, -2] 22050 "a/b/c.wav" ⟨[], []⟩).wavs "a/b/c.wav"
      = some ⟨1, 2, 22050, tobytesLE [1, -2]⟩
    ∧ "a" ∈ (save_wav [1, -2] 22050 "a/b/c.wav" ⟨[], []⟩).dirs
    ∧ lookupAssoc (save_wav [3] 8000 "a/b/c.wav"
          (save_wav [1, -2] 22050 "a/b/c.wav" ⟨[], []⟩)).wavs "a/b/c.wav"
      = some ⟨1, 2, 8000, tobytesLE [3]⟩ :=
  ⟨(save_wav_spec [1, -2] 22050 "a/b/c.wav" ⟨[], []⟩).1,
    (save_wav_spec [1, -2] 22050 "a/b/c.wav" ⟨[], []⟩).2.1 "a" (by decide),
    (save_wav_spec [3] 8000 "a/b/c.wav" _).1⟩

/-! Idempotence of the Python strip, needed for the pipeline transcript. -/

theorem stripList_eq_rdropWhile (l : List Char) :
    stripList l = (l.dropWhile isPySpace).rdropWhile isPySpace := rfl

theorem prefix_get_zero {α : Type} {l1 l2 : List α} (h : l1 <+: l2)
    (h1 : 0 < l1.length) (h2 : 0 < l2.length) :
    l1.get ⟨0, h1⟩ = l2.get ⟨0, h2⟩ := by
  obtain ⟨t, rfl⟩ := h
  rw [List.get_eq_getElem, List.get_eq_getElem]
  exact (List.getElem_append_left h1).symm

theorem stripList_idem (l : List Char) :
    stripList (stripList l) = stripList l := by
  rw [stripList_eq_rdropWhile, stripList_eq_rdropWhile]
  have hdw : ((l.dropWhile isPySpace).rdropWhile isPySpace).dropWhile isPySpace
      = (l.dropWhile isPySpace).rdropWhile isPySpace := by
    rw [List.dropWhile_eq_self_iff]
    intro hl
    have h0 : 0 < (l.dropWhile isPySpace).length := by
      have hle := List.IsPrefix.length_le
        (List.rdropWhile_prefix isPySpace (l.dropWhile isPySpace))
      omega
    rw [prefix_get_zero
      (List.rdropWhile_prefix isPySpace (l.dropWhile isPySpace)) hl h0]
    exact List.dropWhile_get_zero_not isPySpace l h0
  rw [hdw, List.rdropWhile_idempotent]

theorem pyStrip_idem (s : String) : pyStrip (pyStrip s) = pyStrip s :=
  congrArg (fun l => (⟨l⟩ : String)) (stripList_idem s.data)

/-! The pipeline transcript (C2). -/

theorem initialize_piper_voice_ok {V : Type} (pathExists : String → Bool)
    (load : String → Option String → Bool → V)
    (m c : String) (g : Bool)
    (hm : pathExists m = true) (hc : pathExists c = true) :
    initialize_piper_voice pathExists load m (some c) g
      = Except.ok (load m (some c) g) := by
  simp [initialize_piper_voice, hm, hc]

set_option maxHeartbeats 1000000 in
/-- C2 (amended): for every run whose inputs pass validation, the pipeline
succeeds and the audio actually synthesized and written is that of the
transcript `pyOr (pyStrip (join detected)) fallback`; when the join of the
detected fragments strips to blank the transcript is the configured
fallback text, and when it is non-blank the transcript is the join trimmed
of leading and trailing whitespace (not the raw join). -/
theorem image_to_speech_transcript {V : Type}
    (pathExists : String → Bool)
    (imread : String → Option Image)
    (readtext : Engine → Image → Except String (List (Nat × String × Nat)))
    (load : String → Option String → Bool → V)
    (synth : V → String → List (List Nat))
    (sampleRate : V → Nat)
    (image_path output_wav_path : String)
    (ocr_gpu tts_gpu : Bool)
    (model_path config_path : Option String)
    (fallback_text : String)
    (s : CacheState) (fs : FS)
    (img : Image) (results : List (Nat × String × Nat))
    (himg : pathExists image_path = true)
    (hdec : imread image_path = some img)
    (hread : readtext (get_easyocr_reader s).1 img = Except.ok results)
    (hm : pathExists (model_path.getD DEFAULT_MODEL_PATH) = true)
    (hc : pathExists (config_path.getD DEFAULT_CONFIG_PATH) = true)
    (hfb : pyStrip fallback_text ≠ "")
    (heven : ∀ t : String,
      ((synth (load (model_path.getD DEFAULT_MODEL_PATH)
          (some (config_path.getD DEFAULT_CONFIG_PATH)) tts_gpu)
        t).flatten).length % 2 = 0) :
    image_to_speech pathExists imread readtext load synth sampleRate
        image_path output_wav_path ocr_gpu tts_gpu model_path config_path
        fallback_text s fs
      = (Except.ok output_wav_path, (get_easyocr_reader s).2,
          save_wav
            (pairsToInt16 ((synth (load (model_path.getD DEFAULT_MODEL_PATH)
                (some (config_path.getD DEFAULT_CONFIG_PATH)) tts_gpu)
              (pyOr (pyStrip (joinSpace (results.map (fun r => r.2.1))))
                fallback_text)).flatten))
            (sampleRate (load (model_path.getD DEFAULT_MODEL_PATH)
              (some (config_path.getD DEFAULT_CONFIG_PATH)) tts_gpu))
            output_wav_path (mkdirParents output_wav_path fs))
    ∧ (pyStrip (joinSpace (results.map (fun r => r.2.1))) = "" →
        pyOr (pyStrip (joinSpace (results.map (fun r => r.2.1)))) fallback_text
          = fallback_text)
    ∧ (pyStrip (joinSpace (results.map (fun r => r.2.1))) ≠ "" →
        pyOr (pyStrip (joinSpace (results.map (fun r => r.2.1)))) fallback_text
          = pyStrip (joinSpace (results.map (fun r => r.2.1)))) := by
  refine ⟨?_, ?_, ?_⟩
  · have htr : pyStrip (pyOr (pyStrip (joinSpace
        (results.map (fun r => r.2.1)))) fallback_text) ≠ "" := by
      by_cases hj : pyStrip (joinSpace (results.map (fun r => r.2.1))) = ""
      · rw [hj]
        simpa [pyOr] using hfb
      · rw [show pyOr (pyStrip (joinSpace (results.map (fun r => r.2.1))))
            fallback_text
            = pyStrip (joinSpace (results.map (fun r => r.2.1))) from if_neg hj,
          pyStrip_idem]
        exact hj
    have hvoice := initialize_piper_voice_ok pathExists load
      (model_path.getD DEFAULT_MODEL_PATH)
      (config_path.getD DEFAULT_CONFIG_PATH) tts_gpu hm hc
    revert htr
    generalize hT : pyOr (pyStrip (joinSpace (results.map (fun r => r.2.1))))
      fallback_text = T
    intro htr
    have hsyn := synthesise_nonblank_eq
      (synth (load (model_path.getD DEFAULT_MODEL_PATH)
        (some (config_path.getD DEFAULT_CONFIG_PATH)) tts_gpu))
      T (heven T) htr
    simp only [image_to_speech, himg,
      detect_text_some imread readtext image_path ocr_gpu s img hdec, hread,
      hm, hc, hvoice, hT, hsyn]
    rfl
  · intro h
    rw [show pyOr (pyStrip (joinSpace (results.map (fun r => r.2.1))))
        fallback_text
        = if pyStrip (joinSpace (results.map (fun r => r.2.1))) = ""
          then fallback_text
          else pyStrip (joinSpace (results.map (fun r => r.2.1))) from rfl,
      if_pos h]
  · intro h
    exact if_neg h

/-! Concrete pipeline fixtures for the C2 counterexample and witness. -/

def cexExists : String → Bool :=
  fun p => p == "img.png" || p == DEFAULT_MODEL_PATH || p == DEFAULT_CONFIG_PATH

def cexImread : String → Option Image :=
  fun p => if p == "img.png" then some ⟨4, 4, 0⟩ else none

def cexReadtext : Engine → Image → Except String (List (Nat × String × Nat)) :=
  fun _ _ => Except.ok [(0, "hi ", 0)]

def wEmptyReadtext : Engine → Image → Except String (List (Nat × String × Nat)) :=
  fun _ _ => Except.ok []

/-- A voice stream whose audio bytes spell out the synthesized text twice,
so the written WAV reveals which transcript was synthesized. -/
def cexSynth : Unit → String → List (List Nat) :=
  fun _ t => [t.data.map Char.toNat, t.data.map Char.toNat]

theorem cexSynth_even (u : Unit) (t : String) :
    ((cexSynth u t).flatten).length % 2 = 0 := by
  simp [cexSynth]
  omega

def cexRun : Except String String × CacheState × FS :=
  image_to_speech cexExists cexImread cexReadtext (fun _ _ _ => ()) cexSynth
    (fun _ => 22050) "img.png" "out.wav" false false none none
    "No text detected in image." ⟨none, 0⟩ ⟨[], []⟩

/-- C2 counterexample: with the single detected fragment `"hi "` the join
is non-blank, yet the audio written is that of the stripped transcript
`"hi"`, not of the raw space-join `"hi "` — refuting the claim that the
transcript equals the fragments joined with single spaces. -/
theorem transcript_not_raw_join_cex :
    joinSpace ["hi "] ≠ ""
    ∧ cexRun.1 = Except.ok "out.wav"
    ∧ lookupAssoc cexRun.2.2.wavs "out.wav"
        = some ⟨1, 2, 22050,
            tobytesLE (pairsToInt16 ((cexSynth () "hi").flatten))⟩
    ∧ lookupAssoc cexRun.2.2.wavs "out.wav"
        ≠ some ⟨1, 2, 22050,
            tobytesLE (pairsToInt16
              ((cexSynth () (joinSpace ["hi "])).flatten))⟩ :=
  ⟨by decide, rfl, by decide, by decide⟩

theorem image_to_speech_transcript_witness :
    (image_to_speech cexExists cexImread wEmptyReadtext (fun _ _ _ => ())
      cexSynth (fun _ => 22050) "img.png" "out2.wav" false false none none
      "No text detected in image." ⟨none, 0⟩ ⟨[], []⟩).1
      = Except.ok "out2.wav" := by
  have h := image_to_speech_transcript (V := Unit) cexExists cexImread
    wEmptyReadtext (fun _ _ _ => ()) cexSynth (fun _ => 22050) "img.png"
    "out2.wav" false false none none "No text detected in image."
    ⟨none, 0⟩ ⟨[], []⟩ ⟨4, 4, 0⟩ [] (by decide) (by decide) rfl (by decide)
    (by decide) (by decide) (fun t => cexSynth_even () t)
  rw [h.1]

/-! The benchmark harness (C8, C9, C10). -/

theorem removeAssoc_idem {β : Type} (l : List (String × β)) (k : String) :
    removeAssoc (removeAssoc l k) k = removeAssoc l k := by
  induction l with
  | nil => rfl
  | cons a rest ih =>
    obtain ⟨k1, v1⟩ := a
    by_cases hk : k1 = k
    · simp [removeAssoc, hk, ih]
    · simp [removeAssoc, hk, ih]

theorem removeAssoc_setAssoc {β : Type} (l : List (String × β)) (k : String)
    (v : β) : removeAssoc (setAssoc l k v) k = removeAssoc l k := by
  simp [setAssoc, removeAssoc, removeAssoc_idem]

theorem lookupAssoc_removeAssoc {β : Type} (l : List (String × β))
    (k : String) : lookupAssoc (removeAssoc l k) k = none := by
  induction l with
  | nil => rfl
  | cons a rest ih =>
    obtain ⟨k1, v1⟩ := a
    by_cases hk : k1 = k
    · simp [removeAssoc, hk, ih]
    · simp [removeAssoc, lookupAssoc, hk, ih]

theorem benchIter_eq
    (resize : Image → Nat → Nat → Image)
    (readtext : Engine → Image → Except String (List (Nat × String × Nat)))
    (elapsedTime : Nat → Nat)
    (image_path : String) (gpu : Bool) (original : Image)
    (i : Nat) (sc : Nat × Nat)
    (s : CacheState) (store : List (String × Image)) :
    benchIter resize readtext elapsedTime image_path gpu original i sc s store
      = (match detect_text
            (lookupAssoc (setAssoc store (tempPath sc image_path)
              (resize original (original.width * sc.1 / sc.2)
                (original.height * sc.1 / sc.2))))
            readtext (tempPath sc image_path) gpu s with
        | (Except.ok detected_text, s1) =>
          (⟨sc, (original.width * sc.1 / sc.2, original.height * sc.1 / sc.2),
              elapsedTime i, detected_text, detected_text.length, true, none⟩,
            s1, removeAssoc (setAssoc store (tempPath sc image_path)
              (resize original (original.width * sc.1 / sc.2)
                (original.height * sc.1 / sc.2))) (tempPath sc image_path))
        | (Except.error e, s1) =>
          (⟨sc, (original.width * sc.1 / sc.2, original.height * sc.1 / sc.2),
              0, [], 0, false, some e⟩,
            s1, removeAssoc (setAssoc store (tempPath sc image_path)
              (resize original (original.width * sc.1 / sc.2)
                (original.height * sc.1 / sc.2))) (tempPath sc image_path))) :=
  rfl

theorem benchIter_parts
    (resize : Image → Nat → Nat → Image)
    (readtext : Engine → Image → Except String (List (Nat × String × Nat)))
    (elapsedTime : Nat → Nat)
    (image_path : String) (gpu : Bool) (original : Image)
    (i : Nat) (sc : Nat × Nat)
    (s : CacheState) (store : List (String × Image)) :
    (benchIter resize readtext elapsedTime image_path gpu original
        i sc s store).1.scale_factor = sc
    ∧ (benchIter resize readtext elapsedTime image_path gpu original
        i sc s store).1.resolution
      = (original.width * sc.1 / sc.2, original.height * sc.1 / sc.2)
    ∧ (benchIter resize readtext elapsedTime image_path gpu original
        i sc s store).2.2 = removeAssoc store (tempPath sc image_path) := by
  rw [benchIter_eq]
  generalize detect_text
      (lookupAssoc (setAssoc store (tempPath sc image_path)
        (resize original (original.width * sc.1 / sc.2)
          (original.height * sc.1 / sc.2))))
      readtext (tempPath sc image_path) gpu s = d
  obtain ⟨r, s1⟩ := d
  cases r with
  | error e => exact ⟨rfl, rfl, removeAssoc_setAssoc _ _ _⟩
  | ok dd => exact ⟨rfl, rfl, removeAssoc_setAssoc _ _ _⟩

theorem benchLoop_cons
    (resize : Image → Nat → Nat → Image)
    (readtext : Engine → Image → Except String (List (Nat × String × Nat)))
    (elapsedTime : Nat → Nat)
    (image_path : String) (gpu : Bool) (original : Image)
    (i : Nat) (sc : Nat × Nat) (rest : List (Nat × Nat))
    (s : CacheState) (store : List (String × Image)) :
    benchLoop resize readtext elapsedTime image_path gpu original
        i (sc :: rest) s store
      = ((benchIter resize readtext elapsedTime image_path gpu original
            i sc s store).1
          :: (benchLoop resize readtext elapsedTime image_path gpu original
            (i + 1) rest
            (benchIter resize readtext elapsedTime image_path gpu original
              i sc s store).2.1
            (benchIter resize readtext elapsedTime image_path gpu original
              i sc s store).2.2).1,
          (benchLoop resize readtext elapsedTime image_path gpu original
            (i + 1) rest
            (benchIter resize readtext elapsedTime image_path gpu original
              i sc s store).2.1
            (benchIter resize readtext elapsedTime image_path gpu original
              i sc s store).2.2).2) := rfl

theorem benchLoop_spec
    (resize : Image → Nat → Nat → Image)
    (readtext : Engine → Image → Except String (List (Nat × String × Nat)))
    (elapsedTime : Nat → Nat)
    (image_path : String) (gpu : Bool) (original : Image) :
    ∀ (scs : List (Nat × Nat)) (i : Nat) (s : CacheState)
      (store : List (String × Image)),
      (benchLoop resize readtext elapsedTime image_path gpu original
          i scs s store).1.length = scs.length
      ∧ (benchLoop resize readtext elapsedTime image_path gpu original
          i scs s store).1.map (fun r => r.resolution)
        = scs.map (fun sc =>
            (original.width * sc.1 / sc.2, original.height * sc.1 / sc.2))
      ∧ (benchLoop resize readtext elapsedTime image_path gpu original
          i scs s store).1.map (fun r => r.scale_factor) = scs
      ∧ (store = [] →
          (benchLoop resize readtext elapsedTime image_path gpu original
            i scs s store).2.2 = []) := by
  intro scs
  induction scs with
  | nil => intro i s store; exact ⟨rfl, rfl, rfl, fun h => h⟩
  | cons sc rest ih =>
    intro i s store
    rw [benchLoop_cons]
    obtain ⟨hsf, hres, hstore⟩ := benchIter_parts resize readtext elapsedTime
      image_path gpu original i sc s store
    obtain ⟨ihlen, ihres, ihsf, ihstore⟩ := ih (i + 1)
      (benchIter resize readtext elapsedTime image_path gpu original
        i sc s store).2.1
      (benchIter resize readtext elapsedTime image_path gpu original
        i sc s store).2.2
    refine ⟨?_, ?_, ?_, ?_⟩
    · simp [ihlen]
    · simp [hres, ihres]
    · simp [hsf, ihsf]
    · intro h
      subst h
      have hst : (benchIter resize readtext elapsedTime image_path gpu
          original i sc s []).2.2 = [] := by
        rw [hstore]; rfl
      rw [hst]
      exact (ih (i + 1)
        (benchIter resize readtext elapsedTime image_path gpu original
          i sc s []).2.1 []).2.2.2 rfl

theorem benchmark_some
    (imread : String → Option Image)
    (resize : Image → Nat → Nat → Image)
    (readtext : Engine → Image → Except String (List (Nat × String × Nat)))
    (elapsedTime : Nat → Nat)
    (image_path : String) (gpu : Bool) (s : CacheState) (original : Image)
    (h : imread image_path = some original) :
    benchmark_ocr_quality imread resize readtext elapsedTime image_path gpu s
      = Except.ok (benchLoop resize readtext elapsedTime image_path gpu
          original 0 scale_factors s []) := by
  unfold benchmark_ocr_quality
  rw [h]

/-- C8: for every decodable input image, the benchmark produces exactly
three results — one per scale factor (1, 1/2, 1/4) in order — whose
resolutions are the truncated scaled dimensions; this holds for every
recognition behaviour `readtext`, including one that fails at any subset of
the scales, so a per-scale recognition failure never aborts the remaining
scales; every temporary image has been deleted at the end. -/
theorem benchmark_three_results
    (imread : String → Option Image)
    (resize : Image → Nat → Nat → Image)
    (readtext : Engine → Image → Except String (List (Nat × String × Nat)))
    (elapsedTime : Nat → Nat)
    (image_path : String) (gpu : Bool) (s : CacheState) (original : Image)
    (h : imread image_path = some original) :
    ∃ results s1 store,
      benchmark_ocr_quality imread resize readtext elapsedTime image_path
          gpu s
        = Except.ok (results, s1, store)
      ∧ results.length = 3
      ∧ results.map (fun r => r.resolution)
        = [(original.width, original.height),
            (original.width / 2, original.height / 2),
            (original.width / 4, original.height / 4)]
      ∧ results.map (fun r => r.scale_factor) = scale_factors
      ∧ store = [] := by
  obtain ⟨hlen, hres, hsf, hst⟩ := benchLoop_spec resize readtext elapsedTime
    image_path gpu original scale_factors 0 s []
  refine ⟨(benchLoop resize readtext elapsedTime image_path gpu original
      0 scale_factors s []).1,
    (benchLoop resize readtext elapsedTime image_path gpu original
      0 scale_factors s []).2.1,
    (benchLoop resize readtext elapsedTime image_path gpu original
      0 scale_factors s []).2.2,
    benchmark_some imread resize readtext elapsedTime image_path gpu s
      original h, ?_, ?_, hsf, hst rfl⟩
  · rw [hlen]; rfl
  · rw [hres]
    simp [scale_factors]

def wResize : Image → Nat → Nat → Image :=
  fun img w h => ⟨w, h, img.pix⟩

theorem benchmark_three_results_witness :
    ∃ results s1 store,
      benchmark_ocr_quality wImread wResize wReadtext (fun _ => 1) "img.png"
          false ⟨none, 0⟩
        = Except.ok (results, s1, store)
      ∧ results.length = 3
      ∧ store = [] := by
  obtain ⟨r, s1, st, h1, h2, h3, h4, h5⟩ := benchmark_three_results wImread
    wResize wReadtext (fun _ => 1) "img.png" false ⟨none, 0⟩ ⟨8, 6, 1⟩
    (by decide)
  exact ⟨r, s1, st, h1, h2, h5⟩

theorem minByTime_mem (l : List BenchmarkResult) :
    ∀ b : BenchmarkResult, minByTime b l ∈ b :: l := by
  induction l with
  | nil => intro b; simp [minByTime]
  | cons x xs ih =>
    intro b
    unfold minByTime
    by_cases hx : x.execution_time < b.execution_time
    · rw [if_pos hx]
      rcases List.mem_cons.mp (ih x) with h | h
      · rw [h]; simp
      · simp [List.mem_cons_of_mem, h]
    · rw [if_neg hx]
      rcases List.mem_cons.mp (ih b) with h | h
      · rw [h]; simp
      · simp [List.mem_cons_of_mem, h]

theorem minByTime_le (l : List BenchmarkResult) :
    ∀ b : BenchmarkResult, ∀ y ∈ b :: l,
      (minByTime b l).execution_time ≤ y.execution_time := by
  induction l with
  | nil =>
    intro b y hy
    rcases List.mem_cons.mp hy with h | h
    · rw [h]; exact Nat.le_refl _
    · cases h
  | cons x xs ih =>
    intro b y hy
    unfold minByTime
    by_cases hx : x.execution_time < b.execution_time
    · rw [if_pos hx]
      rcases List.mem_cons.mp hy with h | h
      · rw [h]
        exact Nat.le_trans (ih x x (List.mem_cons_self x xs)) (Nat.le_of_lt hx)
      · exact ih x y h
    · rw [if_neg hx]
      rcases List.mem_cons.mp hy with h | h
      · rw [h]; exact ih b b (List.mem_cons_self b xs)
      · rcases List.mem_cons.mp h with h2 | h2
        · rw [h2]
          exact Nat.le_trans (ih b b (List.mem_cons_self b xs))
            (Nat.le_of_not_lt hx)
        · exact ih b y (List.mem_cons_of_mem b h2)

theorem maxByTime_mem (l : List BenchmarkResult) :
    ∀ b : BenchmarkResult, maxByTime b l ∈ b :: l := by
  induction l with
  | nil => intro b; simp [maxByTime]
  | cons x xs ih =>
    intro b
    unfold maxByTime
    by_cases hx : b.execution_time < x.execution_time
    · rw [if_pos hx]
      rcases List.mem_cons.mp (ih x) with h | h
      · rw [h]; simp
      · simp [List.mem_cons_of_mem, h]
    · rw [if_neg hx]
      rcases List.mem_cons.mp (ih b) with h | h
      · rw [h]; simp
      · simp [List.mem_cons_of_mem, h]

theorem maxByTime_ge (l : List BenchmarkResult) :
    ∀ b : BenchmarkResult, ∀ y ∈ b :: l,
      y.execution_time ≤ (maxByTime b l).execution_time := by
  induction l with
  | nil =>
    intro b y hy
    rcases List.mem_cons.mp hy with h | h
    · rw [h]; exact Nat.le_refl _
    · cases h
  | cons x xs ih =>
    intro b y hy
    unfold maxByTime
    by_cases hx : b.execution_time < x.execution_time
    · rw [if_pos hx]
      rcases List.mem_cons.mp hy with h | h
      · rw [h]
        exact Nat.le_trans (Nat.le_of_lt hx) (ih x x (List.mem_cons_self x xs))
      · exact ih x y h
    · rw [if_neg hx]
      rcases List.mem_cons.mp hy with h | h
      · rw [h]; exact ih b b (List.mem_cons_self b xs)
      · rcases List.mem_cons.mp h with h2 | h2
        · rw [h2]
          exact Nat.le_trans (Nat.le_of_not_lt hx)
            (ih b b (List.mem_cons_self b xs))
        · exact ih b y (List.mem_cons_of_mem b h2)

/-- C9: the report summary is computed only over the successful results:
it is the explicit no-success statement exactly when no result succeeded
(so no average is ever formed over an empty set — the average's denominator
is the positive count of successes), and otherwise its average is the sum
of the successful execution times over their count, with fastest and
slowest drawn from (and extremal among) the successful results. -/
theorem benchSummary_successes_only (results : List BenchmarkResult) :
    (benchSummary results = Summary.noSuccess
      ↔ results.filter (fun r => r.success) = [])
    ∧ (∀ n d f sl, benchSummary results = Summary.stats n d f sl →
        d = (results.filter (fun r => r.success)).length
        ∧ 0 < d
        ∧ n = ((results.filter (fun r => r.success)).map
            (fun r => r.execution_time)).sum
        ∧ f ∈ results.filter (fun r => r.success)
        ∧ sl ∈ results.filter (fun r => r.success)
        ∧ (∀ r ∈ results.filter (fun r => r.success),
            f.execution_time ≤ r.execution_time
            ∧ r.execution_time ≤ sl.execution_time)) := by
  constructor
  · unfold benchSummary
    cases hf : results.filter (fun r => r.success) with
    | nil => simp
    | cons a l => simp
  · intro n d f sl h
    unfold benchSummary at h
    cases hf : results.filter (fun r => r.success) with
    | nil => rw [hf] at h; simp at h
    | cons a l =>
      rw [hf] at h
      injection h with h1 h2 h3 h4
      subst h1
      subst h2
      subst h3
      subst h4
      refine ⟨rfl, Nat.succ_pos _, rfl, minByTime_mem l a,
        maxByTime_mem l a, ?_⟩
      intro r hr
      exact ⟨minByTime_le l a r hr, maxByTime_ge l a r hr⟩

def wOk : BenchmarkResult := ⟨(1, 1), (8, 6), 5, ["a"], 1, true, none⟩

def wFail : BenchmarkResult := ⟨(1, 2), (4, 3), 0, [], 0, false, some "x"⟩

theorem benchSummary_successes_only_witness :
    1 = ([wOk, wFail].filter (fun r => r.success)).length ∧ 0 < 1 := by
  have h := (benchSummary_successes_only [wOk, wFail]).2 5 1 wOk wOk
    (by decide)
  exact ⟨h.1, h.2.1⟩

/-- C10: in a benchmark iteration whose recognition call fails, the
recorded result keeps the scale and resolution but has execution time 0
(for every possible elapsed measurement), no detected text, text count 0,
success false and the failure message in the error field; the temporary
scaled image of the iteration is deleted afterwards (it is absent from the
resulting store). -/
theorem benchIter_failure_record
    (resize : Image → Nat → Nat → Image)
    (readtext : Engine → Image → Except String (List (Nat × String × Nat)))
    (elapsedTime : Nat → Nat)
    (image_path : String) (gpu : Bool) (original : Image)
    (i : Nat) (sc : Nat × Nat)
    (s : CacheState) (store : List (String × Image)) (msg : String)
    (hfail : readtext (get_easyocr_reader s).1
        (resize original (original.width * sc.1 / sc.2)
          (original.height * sc.1 / sc.2))
      = Except.error msg) :
    benchIter resize readtext elapsedTime image_path gpu original i sc s store
      = (⟨sc, (original.width * sc.1 / sc.2, original.height * sc.1 / sc.2),
          0, [], 0, false, some msg⟩,
        (get_easyocr_reader s).2,
        removeAssoc store (tempPath sc image_path))
    ∧ lookupAssoc (removeAssoc store (tempPath sc image_path))
        (tempPath sc image_path) = none := by
  constructor
  · rw [benchIter_eq,
      detect_text_some
        (lookupAssoc (setAssoc store (tempPath sc image_path)
          (resize original (original.width * sc.1 / sc.2)
            (original.height * sc.1 / sc.2))))
        readtext (tempPath sc image_path) gpu s
        (resize original (original.width * sc.1 / sc.2)
          (original.height * sc.1 / sc.2))
        (lookupAssoc_set store (tempPath sc image_path)
          (resize original (original.width * sc.1 / sc.2)
            (original.height * sc.1 / sc.2))),
      hfail, removeAssoc_setAssoc]
  · exact lookupAssoc_removeAssoc store (tempPath sc image_path)

def wFailReadtext : Engine → Image → Except String (List (Nat × String × Nat)) :=
  fun _ _ => Except.error "boom"

theorem benchIter_failure_record_witness :
    benchIter wResize wFailReadtext (fun _ => 1) "img.png" false ⟨8, 6, 1⟩
        0 (1, 2) ⟨none, 0⟩ []
      = (⟨(1, 2), (4, 3), 0, [], 0, false, some "boom"⟩,
        (get_easyocr_reader ⟨none, 0⟩).2, [])
    ∧ lookupAssoc ([] : List (String × Image))
        (tempPath (1, 2) "img.png") = none := by
  have h := benchIter_failure_record wResize wFailReadtext (fun _ => 1)
    "img.png" false ⟨8, 6, 1⟩ 0 (1, 2) ⟨none, 0⟩ [] "boom" rfl
  exact ⟨h.1, h.2⟩

end SmartGlasses
